import Mathlib

/-! Verification of the pension-savings calculator (연금저축 계산기).

The definitions below are a shallow embedding of the computation core of
`app.py`: the accumulation simulator, the payout simulator with its
withdrawal-limit test, the annual pension-tax resolver, the progressive
comprehensive-tax schedule, the pension-income deduction schedule, and the
input-validation block.  Python floats are modelled by exact rationals (ℚ);
the Streamlit session flag read by `get_pension_income_deduction_amount`
is passed as an explicit `Bool` parameter. -/

/-- Contribution timing option: 연초 (start of year) or 연말 (end of year). -/
inductive ContributionTiming where
  | startOfYear
  | endOfYear
deriving DecidableEq

/-- Income-level selector (총급여 5,500만원 이하 / 초과); only used for the
tax-credit rate in the UI layer, carried here for completeness. -/
inductive IncomeLevel where
  | low
  | high
deriving DecidableEq

/-- Taxation mode recorded by `calculate_annual_pension_tax`:
저율과세 (low flat rate), 종합과세 (comprehensive), 분리과세 (separate),
해당없음 (none: no taxable withdrawal this year). -/
inductive TaxChoice where
  | lowRate
  | comprehensive
  | separate
  | noChoice
deriving DecidableEq

/-- The `UserInput` dataclass of `app.py`.  Return rates are percentages
(the simulators divide by 100), monetary amounts are exact rationals. -/
structure UserInput where
  start_age : ℕ
  retirement_age : ℕ
  end_age : ℕ
  pre_retirement_return : ℚ
  post_retirement_return : ℚ
  inflation_rate : ℚ
  annual_contribution : ℚ
  non_deductible_contribution : ℚ
  other_non_deductible_total : ℚ
  other_private_pension_income : ℚ
  public_pension_income : ℚ
  other_comprehensive_income : ℚ
  income_level : IncomeLevel
  contribution_timing : ContributionTiming
  current_age_actual : ℕ
  include_pension_deduction : Bool
deriving DecidableEq

def MIN_RETIREMENT_AGE : ℕ := 55

def MIN_CONTRIBUTION_YEARS : ℕ := 5

def MIN_PAYOUT_YEARS : ℕ := 10

def PENSION_TAX_THRESHOLD : ℚ := 15000000

def SEPARATE_TAX_RATE : ℚ := 0.165

def OTHER_INCOME_TAX_RATE : ℚ := 0.165

def PENSION_SAVING_TAX_CREDIT_LIMIT : ℚ := 6000000

def MAX_CONTRIBUTION_LIMIT : ℚ := 18000000

/-- Age-tiered low pension tax rate, `PENSION_TAX_RATES["under_70"]`. -/
def PENSION_TAX_RATES_under_70 : ℚ := 0.055

/-- Age-tiered low pension tax rate, `PENSION_TAX_RATES["under_80"]`. -/
def PENSION_TAX_RATES_under_80 : ℚ := 0.044

/-- Age-tiered low pension tax rate, `PENSION_TAX_RATES["over_80"]`. -/
def PENSION_TAX_RATES_over_80 : ℚ := 0.033

def LOCAL_TAX_RATE : ℚ := 0.1

/-- The progressive bracket table `COMPREHENSIVE_TAX_BRACKETS` of `app.py`:
(threshold, rate, quick deduction); `none` stands for `float('inf')`. -/
def COMPREHENSIVE_TAX_BRACKETS : List (Option ℚ × ℚ × ℚ) :=
  [(some 14000000, 0.06, 0),
   (some 50000000, 0.15, 1260000),
   (some 88000000, 0.24, 5760000),
   (some 150000000, 0.35, 15440000),
   (some 300000000, 0.38, 19940000),
   (some 500000000, 0.40, 25940000),
   (some 1000000000, 0.42, 35940000),
   (none, 0.45, 65940000)]

/-- The bracket scan inside `get_comprehensive_tax`: returns
`taxable_income * rate - deduction` for the first bracket whose threshold
is at least `taxable_income`; an empty list leaves the initial `tax = 0`. -/
def bracket_tax : List (Option ℚ × ℚ × ℚ) → ℚ → ℚ
  | [], _ => 0
  | (threshold, rate, deduction) :: rest, taxable_income =>
    match threshold with
    | none => taxable_income * rate - deduction
    | some t =>
      if taxable_income ≤ t then taxable_income * rate - deduction
      else bracket_tax rest taxable_income

/-- `get_comprehensive_tax` of `app.py` (the Python default
`include_local_tax=True` is passed explicitly at every call site here). -/
def get_comprehensive_tax (taxable_income : ℚ) (include_local_tax : Bool) : ℚ :=
  if taxable_income ≤ 0 then 0
  else
    let tax := bracket_tax COMPREHENSIVE_TAX_BRACKETS taxable_income
    if include_local_tax then tax * (1 + LOCAL_TAX_RATE) else tax

/-- `get_pension_income_deduction_amount` of `app.py`.  The function reads
`st.session_state.get('include_pension_deduction', True)`; that session
value is the explicit `session_include_pension_deduction` parameter. -/
def get_pension_income_deduction_amount
    (session_include_pension_deduction : Bool) (pension_income : ℚ) : ℚ :=
  if ¬ session_include_pension_deduction then 0
  else if pension_income = 0 then 0
  else if pension_income ≤ 3500000 then pension_income
  else if pension_income ≤ 7000000 then 3500000 + (pension_income - 3500000) * 0.4
  else if pension_income ≤ 14000000 then 4900000 + (pension_income - 7000000) * 0.2
  else min (6300000 + (pension_income - 14000000) * 0.1) 9000000

/-- Result record of `calculate_annual_pension_tax`
(`{'chosen': …, 'comprehensive': …, 'separate': …, 'choice': …}`). -/
structure TaxResult where
  chosen : ℚ
  comprehensive : ℚ
  separate : ℚ
  choice : TaxChoice
deriving DecidableEq

/-- Age-tier selection of the low pension tax rate inside
`calculate_annual_pension_tax` (`current_age < 70` / `< 80` / `else`). -/
def pension_low_tax_rate (current_age : ℕ) : ℚ :=
  if current_age < 70 then PENSION_TAX_RATES_under_70
  else if current_age < 80 then PENSION_TAX_RATES_under_80
  else PENSION_TAX_RATES_over_80

/-- `calculate_annual_pension_tax` of `app.py`. -/
def calculate_annual_pension_tax (session_flag : Bool) (private_pension_gross : ℚ)
    (user_inputs : UserInput) (current_age : ℕ) : TaxResult :=
  if private_pension_gross ≤ PENSION_TAX_THRESHOLD then
    let rate := pension_low_tax_rate current_age
    let tax := private_pension_gross * rate
    { chosen := tax, comprehensive := tax, separate := tax, choice := TaxChoice.lowRate }
  else
    let total_pension_income_for_comp :=
      private_pension_gross + user_inputs.other_private_pension_income
        + user_inputs.public_pension_income
    let taxable_pension_income_for_comp :=
      total_pension_income_for_comp
        - get_pension_income_deduction_amount session_flag total_pension_income_for_comp
    let total_other_pension_income_for_deduction :=
      user_inputs.other_private_pension_income + user_inputs.public_pension_income
    let taxable_other_pension_income_only :=
      total_other_pension_income_for_deduction
        - get_pension_income_deduction_amount session_flag total_other_pension_income_for_deduction
    let taxable_income_without_current_private :=
      taxable_other_pension_income_only + user_inputs.other_comprehensive_income
    let tax_without_private_pension :=
      get_comprehensive_tax taxable_income_without_current_private true
    let taxable_all_income :=
      taxable_pension_income_for_comp + user_inputs.other_comprehensive_income
    let tax_with_private_pension_comprehensive :=
      get_comprehensive_tax taxable_all_income true
    let tax_on_private_pension_comp :=
      max 0 (tax_with_private_pension_comprehensive - tax_without_private_pension)
    let separate_tax := private_pension_gross * SEPARATE_TAX_RATE
    if tax_on_private_pension_comp < separate_tax then
      { chosen := tax_on_private_pension_comp, comprehensive := tax_on_private_pension_comp,
        separate := separate_tax, choice := TaxChoice.comprehensive }
    else
      { chosen := separate_tax, comprehensive := tax_on_private_pension_comp,
        separate := separate_tax, choice := TaxChoice.separate }

/-- One row of the year-by-year payout ledger produced by
`run_payout_simulation` (the dictionary appended to `annual_breakdown`). -/
structure YearRow where
  age : ℕ
  annual_payout : ℚ
  annual_take_home : ℚ
  total_tax_paid : ℚ
  pension_tax : ℚ
  tax_on_limit_excess : ℚ
  end_balance : ℚ
  pension_payout_under_limit : ℚ
  comprehensive_tax : ℚ
  separate_tax : ℚ
  choice : TaxChoice
deriving DecidableEq

/-- The values produced by one iteration of the payout loop: the emitted
ledger row together with the loop-local withdrawal split and the updated
wallet balances. -/
structure YearStep where
  row : YearRow
  from_non_taxable : ℚ
  from_taxable : ℚ
  new_non_taxable_wallet : ℚ
  new_taxable_wallet : ℚ
deriving DecidableEq

/-- Body of one iteration of the `for year_offset in range(payout_years)`
loop of `run_payout_simulation` (everything after the balance check):
withdrawal sizing by the annuity-due formula, tax-free-first apportioning,
the 10-year withdrawal-limit test, the pension-tax resolution and the
end-of-year wallet update. -/
def payout_year_step (inputs : UserInput) (session_flag : Bool) (post_ret_rate : ℚ)
    (payout_years year_offset : ℕ) (non_taxable_wallet taxable_wallet : ℚ) : YearStep :=
  let current_balance := non_taxable_wallet + taxable_wallet
  let current_age := inputs.retirement_age + year_offset
  let payout_year_count := year_offset + 1
  let remaining_years := payout_years - year_offset
  let annual_payout_raw :=
    if remaining_years = 0 then 0
    else if post_ret_rate = 0 then current_balance / (remaining_years : ℚ)
    else if post_ret_rate ≤ -1 then current_balance
    else
      let annuity_factor_ordinary :=
        (1 - ((1 + post_ret_rate) ^ remaining_years)⁻¹) / post_ret_rate
      let annuity_factor := annuity_factor_ordinary * (1 + post_ret_rate)
      if 0 < annuity_factor then current_balance / annuity_factor else 0
  let annual_payout := min annual_payout_raw current_balance
  let from_non_taxable := min annual_payout non_taxable_wallet
  let from_taxable := annual_payout - from_non_taxable
  let limit_split :=
    if payout_year_count ≤ 10 then
      let pension_payout_limit := current_balance * 1.2 / (11 - (payout_year_count : ℚ))
      if pension_payout_limit < from_taxable then
        (pension_payout_limit, (from_taxable - pension_payout_limit) * OTHER_INCOME_TAX_RATE)
      else (from_taxable, 0)
    else (from_taxable, (0 : ℚ))
  let pension_payout_under_limit := limit_split.1
  let tax_on_limit_excess := limit_split.2
  let pension_tax_info :=
    if 0 < pension_payout_under_limit then
      calculate_annual_pension_tax session_flag pension_payout_under_limit inputs current_age
    else { chosen := 0, comprehensive := 0, separate := 0, choice := TaxChoice.noChoice }
  let pension_tax := pension_tax_info.chosen
  let total_tax_paid := pension_tax + tax_on_limit_excess
  let annual_take_home := annual_payout - total_tax_paid
  let new_non_taxable_wallet := (non_taxable_wallet - from_non_taxable) * (1 + post_ret_rate)
  let new_taxable_wallet := (taxable_wallet - from_taxable) * (1 + post_ret_rate)
  { row :=
      { age := current_age
        annual_payout := annual_payout
        annual_take_home := annual_take_home
        total_tax_paid := total_tax_paid
        pension_tax := pension_tax
        tax_on_limit_excess := tax_on_limit_excess
        end_balance := new_non_taxable_wallet + new_taxable_wallet
        pension_payout_under_limit := pension_payout_under_limit
        comprehensive_tax := pension_tax_info.comprehensive
        separate_tax := pension_tax_info.separate
        choice := pension_tax_info.choice }
    from_non_taxable := from_non_taxable
    from_taxable := from_taxable
    new_non_taxable_wallet := new_non_taxable_wallet
    new_taxable_wallet := new_taxable_wallet }

/-- The payout loop of `run_payout_simulation`: `fuel` counts the loop
iterations still allowed (`payout_years - year_offset`); the loop stops
early when the combined wallet balance is `≤ 0`. -/
def payout_loop (inputs : UserInput) (session_flag : Bool) (post_ret_rate : ℚ)
    (payout_years : ℕ) : ℕ → ℕ → ℚ → ℚ → List YearRow
  | 0, _, _, _ => []
  | fuel + 1, year_offset, non_taxable_wallet, taxable_wallet =>
    if non_taxable_wallet + taxable_wallet ≤ 0 then []
    else
      let s := payout_year_step inputs session_flag post_ret_rate payout_years year_offset
        non_taxable_wallet taxable_wallet
      s.row :: payout_loop inputs session_flag post_ret_rate payout_years fuel
        (year_offset + 1) s.new_non_taxable_wallet s.new_taxable_wallet

/-- Seeding of the taxable wallet in `run_payout_simulation`:
`taxable_wallet = total_at_retirement - non_taxable_wallet`. -/
def initial_taxable_wallet (total_at_retirement total_non_deductible_paid : ℚ) : ℚ :=
  total_at_retirement - total_non_deductible_paid

/-- `run_payout_simulation` of `app.py`, returning the annual ledger. -/
def run_payout_simulation (inputs : UserInput)
    (total_at_retirement total_non_deductible_paid : ℚ) (session_flag : Bool) :
    List YearRow :=
  let post_ret_rate := inputs.post_retirement_return / 100
  let non_taxable_wallet := total_non_deductible_paid
  let taxable_wallet := initial_taxable_wallet total_at_retirement total_non_deductible_paid
  let payout_years := inputs.end_age - inputs.retirement_age
  payout_loop inputs session_flag post_ret_rate payout_years payout_years 0
    non_taxable_wallet taxable_wallet

/-- The per-year balance update of `calculate_total_at_retirement`:
연초 (start of year) compounds after the contribution, 연말 (end of year)
contributes after compounding. -/
def contribution_step (inputs : UserInput) (pre_ret_rate current_value : ℚ) : ℚ :=
  match inputs.contribution_timing with
  | ContributionTiming.startOfYear =>
    (current_value + inputs.annual_contribution) * (1 + pre_ret_rate)
  | ContributionTiming.endOfYear =>
    current_value * (1 + pre_ret_rate) + inputs.annual_contribution

/-- The `for year in range(contribution_years)` loop of
`calculate_total_at_retirement`, recording `(start_age + year + 1, value)`
after each yearly update. -/
def accumulation_loop (inputs : UserInput) (pre_ret_rate : ℚ) :
    ℕ → ℕ → ℚ → ℚ × List (ℕ × ℚ)
  | 0, _, current_value => (current_value, [])
  | years + 1, year, current_value =>
    let next_value := contribution_step inputs pre_ret_rate current_value
    let rest := accumulation_loop inputs pre_ret_rate years (year + 1) next_value
    (rest.1, (inputs.start_age + year + 1, next_value) :: rest.2)

/-- `calculate_total_at_retirement` of `app.py`: ending balance plus the
year-by-year asset-growth series. -/
def calculate_total_at_retirement (inputs : UserInput) : ℚ × List (ℕ × ℚ) :=
  accumulation_loop inputs (inputs.pre_retirement_return / 100)
    (inputs.retirement_age - inputs.start_age) 0 0

/-- The individual checks of the input-validation block of `app.py`
(the `errors` list built after the 결과 확인하기 button). -/
inductive ValidationError where
  | ageOrder
  | retirementTooEarly
  | contributionYearsTooShort
  | payoutYearsTooShort
  | contributionOverLimit
  | nonDeductibleOverContribution
deriving DecidableEq

/-- The input-validation block of `app.py` (lines building `errors`):
age ordering, minimum retirement age, minimum contribution years,
minimum payout years, contribution cap, and non-deductible ≤ contribution.
Ages are compared as integers exactly as Python does. -/
def validation_errors (ui : UserInput) : List ValidationError :=
  (if ¬ (ui.start_age < ui.retirement_age ∧ ui.retirement_age < ui.end_age) then
    [ValidationError.ageOrder] else []) ++
  (if ui.retirement_age < MIN_RETIREMENT_AGE then
    [ValidationError.retirementTooEarly] else []) ++
  (if (ui.retirement_age : ℤ) - (ui.start_age : ℤ) < (MIN_CONTRIBUTION_YEARS : ℤ) then
    [ValidationError.contributionYearsTooShort] else []) ++
  (if (ui.end_age : ℤ) - (ui.retirement_age : ℤ) < (MIN_PAYOUT_YEARS : ℤ) then
    [ValidationError.payoutYearsTooShort] else []) ++
  (if MAX_CONTRIBUTION_LIMIT < ui.annual_contribution then
    [ValidationError.contributionOverLimit] else []) ++
  (if ui.annual_contribution < ui.non_deductible_contribution then
    [ValidationError.nonDeductibleOverContribution] else [])

/-- The cumulative non-deductible principal computed by the main block of
`app.py`: `non_deductible_contribution * contribution_years
+ other_non_deductible_total`. -/
def total_non_deductible_paid (ui : UserInput) : ℚ :=
  ui.non_deductible_contribution * ((ui.retirement_age - ui.start_age : ℕ) : ℚ)
    + ui.other_non_deductible_total

/-- The simulation pipeline of the main block of `app.py`: accumulation,
then (when the retirement balance is positive) the payout simulation.
The session checkbox `include_pension_deduction` read inside
`get_pension_income_deduction_amount` is the explicit `session_flag`. -/
def run_full_simulation (ui : UserInput) (session_flag : Bool) :
    ℚ × List (ℕ × ℚ) × List YearRow :=
  let acc := calculate_total_at_retirement ui
  let ledger :=
    if 0 < acc.1 then
      run_payout_simulation ui acc.1 (total_non_deductible_paid ui) session_flag
    else []
  (acc.1, acc.2, ledger)

/-- Specification-side formula (spec §4.3 step 3, claim C2) for the
incremental comprehensive tax attributable to the current withdrawal `w`:
`max(0, T((totalPensionGross − D(totalPensionGross)) + otherComprehensiveIncome)
− T((otherPensionIncome − D(otherPensionIncome)) + otherComprehensiveIncome))`,
written with the code's `get_comprehensive_tax` and
`get_pension_income_deduction_amount`, to be compared with what
`calculate_annual_pension_tax` actually returns. -/
def spec_incremental_comprehensive_tax (session_flag : Bool) (ui : UserInput) (w : ℚ) : ℚ :=
  max 0
    (get_comprehensive_tax
        ((w + (ui.other_private_pension_income + ui.public_pension_income)
            - get_pension_income_deduction_amount session_flag
                (w + (ui.other_private_pension_income + ui.public_pension_income)))
          + ui.other_comprehensive_income) true
      - get_comprehensive_tax
          (((ui.other_private_pension_income + ui.public_pension_income)
              - get_pension_income_deduction_amount session_flag
                  (ui.other_private_pension_income + ui.public_pension_income))
            + ui.other_comprehensive_income) true)

/-- Specification-side checker (claim C8): a ledger is a straight-line
depletion of balance `b` over `n` years when each row withdraws
`b / n` (the remaining balance divided by the remaining years), leaves
`b - b / n` at the end of the year, and the tail continues from there. -/
def straight_line_rows (b : ℚ) (n : ℕ) : List YearRow → Bool
  | [] => true
  | r :: rest =>
    decide (r.annual_payout = b / (n : ℚ)) && decide (r.end_balance = b - b / (n : ℚ))
      && straight_line_rows (b - b / (n : ℚ)) (n - 1) rest

/-- Concrete resolver input for claim C1: 5,000,000 of other private
pension income alongside a 14,000,000 within-limit withdrawal. -/
def inputC1 : UserInput :=
  { start_age := 30, retirement_age := 60, end_age := 90,
    pre_retirement_return := 6, post_retirement_return := 4, inflation_rate := 3,
    annual_contribution := 6000000, non_deductible_contribution := 0,
    other_non_deductible_total := 0, other_private_pension_income := 5000000,
    public_pension_income := 0, other_comprehensive_income := 0,
    income_level := IncomeLevel.low, contribution_timing := ContributionTiming.endOfYear,
    current_age_actual := 30, include_pension_deduction := true }

/-- Concrete resolver input for the claim C1 witness: no other income. -/
def inputC1W : UserInput :=
  { start_age := 30, retirement_age := 60, end_age := 90,
    pre_retirement_return := 6, post_retirement_return := 4, inflation_rate := 3,
    annual_contribution := 6000000, non_deductible_contribution := 0,
    other_non_deductible_total := 0, other_private_pension_income := 0,
    public_pension_income := 0, other_comprehensive_income := 0,
    income_level := IncomeLevel.low, contribution_timing := ContributionTiming.endOfYear,
    current_age_actual := 30, include_pension_deduction := true }

/-- Concrete resolver input for claim C2: 2,000,000 of other private
pension income alongside a 14,000,000 within-limit withdrawal. -/
def inputC2 : UserInput :=
  { start_age := 30, retirement_age := 60, end_age := 90,
    pre_retirement_return := 6, post_retirement_return := 4, inflation_rate := 3,
    annual_contribution := 6000000, non_deductible_contribution := 0,
    other_non_deductible_total := 0, other_private_pension_income := 2000000,
    public_pension_income := 0, other_comprehensive_income := 0,
    income_level := IncomeLevel.low, contribution_timing := ContributionTiming.endOfYear,
    current_age_actual := 30, include_pension_deduction := true }

/-- Concrete resolver input for the claim C2 witness: no other income. -/
def inputC2W : UserInput :=
  { start_age := 30, retirement_age := 60, end_age := 90,
    pre_retirement_return := 6, post_retirement_return := 4, inflation_rate := 3,
    annual_contribution := 6000000, non_deductible_contribution := 0,
    other_non_deductible_total := 0, other_private_pension_income := 0,
    public_pension_income := 0, other_comprehensive_income := 0,
    income_level := IncomeLevel.high, contribution_timing := ContributionTiming.endOfYear,
    current_age_actual := 30, include_pension_deduction := false }

/-- Concrete input for claim C5: passes the validation block, yet its
accumulated balance (5 years of 6,000,000 at a −50% return, end-of-year
timing) is below the 30,000,000 of non-deductible principal paid in. -/
def inputC5 : UserInput :=
  { start_age := 50, retirement_age := 55, end_age := 65,
    pre_retirement_return := -50, post_retirement_return := 4, inflation_rate := 3,
    annual_contribution := 6000000, non_deductible_contribution := 6000000,
    other_non_deductible_total := 0, other_private_pension_income := 0,
    public_pension_income := 0, other_comprehensive_income := 0,
    income_level := IncomeLevel.low, contribution_timing := ContributionTiming.endOfYear,
    current_age_actual := 50, include_pension_deduction := true }

/-- Concrete input for claim C6: one contribution year of 130,000,000 at
0% return, one payout year, so the single ledger row exercises the
comprehensive-vs-separate choice (within-limit amount 15,600,000). -/
def inputC6 : UserInput :=
  { start_age := 59, retirement_age := 60, end_age := 61,
    pre_retirement_return := 0, post_retirement_return := 0, inflation_rate := 3,
    annual_contribution := 130000000, non_deductible_contribution := 0,
    other_non_deductible_total := 0, other_private_pension_income := 0,
    public_pension_income := 0, other_comprehensive_income := 0,
    income_level := IncomeLevel.low, contribution_timing := ContributionTiming.endOfYear,
    current_age_actual := 30, include_pension_deduction := true }

/-- Concrete input for the claim C6 witness. -/
def inputC6W : UserInput :=
  { start_age := 59, retirement_age := 60, end_age := 61,
    pre_retirement_return := 0, post_retirement_return := 0, inflation_rate := 3,
    annual_contribution := 1000000, non_deductible_contribution := 0,
    other_non_deductible_total := 0, other_private_pension_income := 0,
    public_pension_income := 0, other_comprehensive_income := 0,
    income_level := IncomeLevel.low, contribution_timing := ContributionTiming.endOfYear,
    current_age_actual := 30, include_pension_deduction := true }

/-- Concrete input for claim C7: a post-payout return of exactly −100%,
with every field the validation block does check kept valid. -/
def inputC7 : UserInput :=
  { start_age := 50, retirement_age := 55, end_age := 65,
    pre_retirement_return := 0, post_retirement_return := -100, inflation_rate := 3,
    annual_contribution := 18000000, non_deductible_contribution := 0,
    other_non_deductible_total := 0, other_private_pension_income := 0,
    public_pension_income := 0, other_comprehensive_income := 0,
    income_level := IncomeLevel.low, contribution_timing := ContributionTiming.endOfYear,
    current_age_actual := 50, include_pension_deduction := true }

/-- Concrete input for the claim C7 witness. -/
def inputC7W : UserInput :=
  { start_age := 40, retirement_age := 60, end_age := 80,
    pre_retirement_return := 5, post_retirement_return := -100, inflation_rate := 3,
    annual_contribution := 6000000, non_deductible_contribution := 0,
    other_non_deductible_total := 0, other_private_pension_income := 0,
    public_pension_income := 0, other_comprehensive_income := 0,
    income_level := IncomeLevel.low, contribution_timing := ContributionTiming.endOfYear,
    current_age_actual := 40, include_pension_deduction := true }

/-- Concrete input for the claim C8 witness: 0% post-payout return. -/
def inputC8 : UserInput :=
  { start_age := 45, retirement_age := 55, end_age := 65,
    pre_retirement_return := 3, post_retirement_return := 0, inflation_rate := 3,
    annual_contribution := 6000000, non_deductible_contribution := 0,
    other_non_deductible_total := 0, other_private_pension_income := 0,
    public_pension_income := 0, other_comprehensive_income := 0,
    income_level := IncomeLevel.low, contribution_timing := ContributionTiming.startOfYear,
    current_age_actual := 45, include_pension_deduction := true }

/-- Concrete input for the claim C9 witness: zero contribution years
(payout-start age equal to start age). -/
def inputC9 : UserInput :=
  { start_age := 55, retirement_age := 55, end_age := 65,
    pre_retirement_return := 5, post_retirement_return := 3, inflation_rate := 3,
    annual_contribution := 6000000, non_deductible_contribution := 0,
    other_non_deductible_total := 0, other_private_pension_income := 0,
    public_pension_income := 0, other_comprehensive_income := 0,
    income_level := IncomeLevel.low, contribution_timing := ContributionTiming.endOfYear,
    current_age_actual := 55, include_pension_deduction := true }

/-- Concrete input for the claims C3, C4 and C5 witnesses. -/
def inputStep : UserInput :=
  { start_age := 30, retirement_age := 60, end_age := 90,
    pre_retirement_return := 6, post_retirement_return := 4, inflation_rate := 3,
    annual_contribution := 6000000, non_deductible_contribution := 0,
    other_non_deductible_total := 0, other_private_pension_income := 0,
    public_pension_income := 0, other_comprehensive_income := 0,
    income_level := IncomeLevel.low, contribution_timing := ContributionTiming.endOfYear,
    current_age_actual := 30, include_pension_deduction := true }

/-! ## Helper lemmas about one payout-year step -/

lemma wallet_sub_le (A ntw tw : ℚ) (hA : A ≤ ntw + tw) (h2 : 0 ≤ tw) :
    A - min A ntw ≤ tw := by
  rcases le_total A ntw with h | h
  · rw [min_eq_left h]; linarith
  · rw [min_eq_right h]; linarith

lemma payout_year_step_from_sum (inputs : UserInput) (flag : Bool) (rate : ℚ)
    (py off : ℕ) (ntw tw : ℚ) :
    (payout_year_step inputs flag rate py off ntw tw).from_non_taxable
      + (payout_year_step inputs flag rate py off ntw tw).from_taxable
      = (payout_year_step inputs flag rate py off ntw tw).row.annual_payout := by
  unfold payout_year_step
  dsimp only
  ring

lemma payout_year_step_new_sum (inputs : UserInput) (flag : Bool) (rate : ℚ)
    (py off : ℕ) (ntw tw : ℚ) :
    (payout_year_step inputs flag rate py off ntw tw).new_non_taxable_wallet
      + (payout_year_step inputs flag rate py off ntw tw).new_taxable_wallet
      = (ntw + tw - (payout_year_step inputs flag rate py off ntw tw).row.annual_payout)
          * (1 + rate) := by
  unfold payout_year_step
  dsimp only
  ring

lemma payout_year_step_end_balance (inputs : UserInput) (flag : Bool) (rate : ℚ)
    (py off : ℕ) (ntw tw : ℚ) :
    (payout_year_step inputs flag rate py off ntw tw).row.end_balance
      = (payout_year_step inputs flag rate py off ntw tw).new_non_taxable_wallet
        + (payout_year_step inputs flag rate py off ntw tw).new_taxable_wallet := rfl

lemma payout_year_step_payout_le (inputs : UserInput) (flag : Bool) (rate : ℚ)
    (py off : ℕ) (ntw tw : ℚ) :
    (payout_year_step inputs flag rate py off ntw tw).row.annual_payout ≤ ntw + tw := by
  unfold payout_year_step
  dsimp only
  exact min_le_right _ _

lemma payout_year_step_zero_rate_payout (inputs : UserInput) (flag : Bool)
    (py off : ℕ) (ntw tw : ℚ) (h1 : off < py) (h2 : 0 < ntw + tw) :
    (payout_year_step inputs flag 0 py off ntw tw).row.annual_payout
      = (ntw + tw) / ((py - off : ℕ) : ℚ) := by
  have hr0 : py - off ≠ 0 := Nat.sub_ne_zero_of_lt h1
  have hone : (1 : ℚ) ≤ ((py - off : ℕ) : ℚ) := by
    exact_mod_cast Nat.one_le_iff_ne_zero.mpr hr0
  unfold payout_year_step
  dsimp only
  rw [if_neg hr0, if_pos rfl]
  exact min_eq_left (div_le_self h2.le hone)

lemma payout_year_step_neg_rate_payout (inputs : UserInput) (flag : Bool) (rate : ℚ)
    (py off : ℕ) (ntw tw : ℚ) (hr : rate ≤ -1) (h1 : off < py) :
    (payout_year_step inputs flag rate py off ntw tw).row.annual_payout = ntw + tw := by
  have hr0 : py - off ≠ 0 := Nat.sub_ne_zero_of_lt h1
  have hrne : rate ≠ 0 := by linarith
  unfold payout_year_step
  dsimp only
  rw [if_neg hr0, if_neg hrne, if_pos hr]
  exact min_self _

/-! ## Claim C3: the 10-year withdrawal-limit test -/

/-- Claim C3: in a payout year with 1-based index at most 10, the
withdrawal limit is the entering-year balance times 1.2 divided by
`(11 − yearIndex)`; when the taxable withdrawal exceeds that limit the
within-limit portion is clipped to the limit and the excess is taxed at
the 16.5% other-income rate, otherwise the within-limit portion is the
taxable withdrawal and the excess tax is 0; past year 10 no limit applies
and the excess tax is 0. -/
theorem C3_withdrawal_limit (inputs : UserInput) (session_flag : Bool) (rate : ℚ)
    (py off : ℕ) (ntw tw : ℚ) (s : YearStep)
    (hs : s = payout_year_step inputs session_flag rate py off ntw tw) :
    s.row.pension_payout_under_limit =
      (if off + 1 ≤ 10 then
        (if (ntw + tw) * 1.2 / (11 - ((off + 1 : ℕ) : ℚ)) < s.from_taxable
          then (ntw + tw) * 1.2 / (11 - ((off + 1 : ℕ) : ℚ))
          else s.from_taxable)
        else s.from_taxable)
    ∧ s.row.tax_on_limit_excess =
      (if off + 1 ≤ 10 then
        (if (ntw + tw) * 1.2 / (11 - ((off + 1 : ℕ) : ℚ)) < s.from_taxable
          then (s.from_taxable - (ntw + tw) * 1.2 / (11 - ((off + 1 : ℕ) : ℚ)))
            * (0.165 : ℚ)
          else 0)
        else 0) := by
  subst hs
  unfold payout_year_step
  dsimp only
  constructor
  · split_ifs <;> rfl
  · split_ifs <;> rfl

/-- Witness for C3 at a concrete year past the 10-year window
(yearIndex 12): no excess tax is charged. -/
theorem C3_withdrawal_limit_witness :
    (payout_year_step inputStep true (1/25) 20 11 100 200).row.tax_on_limit_excess = 0 := by
  have h := (C3_withdrawal_limit inputStep true (1/25) 20 11 100 200 _ rfl).2
  simpa using h

/-! ## Claim C4: per-year withdrawal split and balance round-trip -/

/-- Claim C4: in every payout year, `from_non_taxable + from_taxable`
equals that year's gross withdrawal, and the sum of the two wallet
balances after the end-of-year update equals
`(entering balance − gross withdrawal) * (1 + postReturn)` exactly.
Every ledger row of every run is produced by `payout_year_step` on the
wallets entering that year, so this covers every payout year. -/
theorem C4_round_trip (inputs : UserInput) (session_flag : Bool) (rate : ℚ)
    (py off : ℕ) (ntw tw : ℚ) (s : YearStep)
    (hs : s = payout_year_step inputs session_flag rate py off ntw tw) :
    s.from_non_taxable + s.from_taxable = s.row.annual_payout
    ∧ s.new_non_taxable_wallet + s.new_taxable_wallet
        = (ntw + tw - s.row.annual_payout) * (1 + rate) := by
  subst hs
  exact ⟨payout_year_step_from_sum inputs session_flag rate py off ntw tw,
    payout_year_step_new_sum inputs session_flag rate py off ntw tw⟩

/-- Witness for C4 at a concrete payout year. -/
theorem C4_round_trip_witness :
    (payout_year_step inputStep true (1/25) 30 0 1000 9000).from_non_taxable
        + (payout_year_step inputStep true (1/25) 30 0 1000 9000).from_taxable
      = (payout_year_step inputStep true (1/25) 30 0 1000 9000).row.annual_payout :=
  (C4_round_trip inputStep true (1/25) 30 0 1000 9000 _ rfl).1

/-! ## Claim C5: wallet non-negativity -/

/-- Claim C5 (amended): both wallets stay non-negative through a payout
year's withdrawal apportionment and growth update provided they enter the
year non-negative and `1 + postReturn ≥ 0`.  The original claim fails at
the seeding step: see `C5_counterexample`. -/
theorem C5_wallets_nonneg (inputs : UserInput) (session_flag : Bool) (rate : ℚ)
    (py off : ℕ) (ntw tw : ℚ) (s : YearStep)
    (hs : s = payout_year_step inputs session_flag rate py off ntw tw)
    (h1 : 0 ≤ ntw) (h2 : 0 ≤ tw) (h3 : 0 ≤ 1 + rate) :
    0 ≤ s.new_non_taxable_wallet ∧ 0 ≤ s.new_taxable_wallet := by
  subst hs
  unfold payout_year_step
  dsimp only
  constructor
  · exact mul_nonneg (sub_nonneg.mpr (min_le_right _ _)) h3
  · refine mul_nonneg (sub_nonneg.mpr ?_) h3
    exact wallet_sub_le _ ntw tw (min_le_right _ _) h2

/-- Witness for C5 at a concrete payout year with non-negative wallets. -/
theorem C5_wallets_nonneg_witness :
    0 ≤ (payout_year_step inputStep true (1/25) 30 2 500 700).new_non_taxable_wallet
    ∧ 0 ≤ (payout_year_step inputStep true (1/25) 30 2 500 700).new_taxable_wallet :=
  C5_wallets_nonneg inputStep true (1/25) 30 2 500 700 _ rfl (by norm_num) (by norm_num)
    (by norm_num)

/-- Counterexample to C5 as stated: `inputC5` passes the app's validation
block, yet the payout simulator seeds the taxable wallet with
`total_at_retirement − total_non_deductible_paid`, which is negative
(11,625,000 − 30,000,000), so the wallets are not non-negative at all
times. -/
theorem C5_counterexample :
    validation_errors inputC5 = []
    ∧ initial_taxable_wallet (calculate_total_at_retirement inputC5).1
        (total_non_deductible_paid inputC5) < 0 := by
  constructor
  · decide
  · norm_num [initial_taxable_wallet, calculate_total_at_retirement, accumulation_loop,
      contribution_step, total_non_deductible_paid, inputC5]

/-! ## Claim C7: return rate of −100% or below -/

/-- Claim C7 (amended): a post-payout return of −100% or below is not
rejected by the validation block — which never examines the return-rate
fields — and is instead handled inside the payout loop by an explicit
branch that withdraws the entire remaining balance. -/
theorem C7_low_rate_in_loop (ui : UserInput) (r : ℚ) (session_flag : Bool)
    (py off : ℕ) (ntw tw : ℚ) (s : YearStep)
    (hs : s = payout_year_step ui session_flag r py off ntw tw)
    (hr : r ≤ -1) (hoff : off < py) :
    validation_errors { ui with post_retirement_return := 100 * r } = validation_errors ui
    ∧ s.row.annual_payout = ntw + tw := by
  subst hs
  exact ⟨rfl, payout_year_step_neg_rate_payout ui session_flag r py off ntw tw hr hoff⟩

/-- Witness for C7 at rate −100% and a concrete payout year. -/
theorem C7_low_rate_in_loop_witness :
    (payout_year_step inputC7W true (-1) 20 0 30 70).row.annual_payout = 30 + 70 :=
  (C7_low_rate_in_loop inputC7W (-1) true 20 0 30 70 _ rfl (by norm_num) (by norm_num)).2

set_option maxRecDepth 2000 in
/-- Counterexample to C7 as stated: `inputC7` has a post-payout return of
exactly −100%, passes validation with no errors, and the simulation then
runs: its first (and only) ledger row withdraws the full 90,000,000
balance via the loop's `post_ret_rate ≤ -1` branch — the opposite of
being rejected before any simulation step. -/
theorem C7_counterexample :
    validation_errors inputC7 = []
    ∧ (run_full_simulation inputC7 true).2.2.map YearRow.annual_payout = [90000000] := by
  refine ⟨by decide, ?_⟩
  have hacc : (calculate_total_at_retirement inputC7).1 = 90000000 := by
    norm_num [calculate_total_at_retirement, accumulation_loop, contribution_step, inputC7]
  have htnd : total_non_deductible_paid inputC7 = 0 := by
    norm_num [total_non_deductible_paid, inputC7]
  have hrate : inputC7.post_retirement_return / 100 = -1 := by norm_num [inputC7]
  have hpy : inputC7.end_age - inputC7.retirement_age = 10 := by decide
  simp only [run_full_simulation, run_payout_simulation, initial_taxable_wallet]
  rw [hacc, htnd, hrate, hpy, if_pos (by norm_num : (0:ℚ) < 90000000)]
  norm_num [payout_loop, payout_year_step, calculate_annual_pension_tax,
    pension_low_tax_rate, get_pension_income_deduction_amount, get_comprehensive_tax,
    bracket_tax, COMPREHENSIVE_TAX_BRACKETS, PENSION_TAX_THRESHOLD, SEPARATE_TAX_RATE,
    OTHER_INCOME_TAX_RATE, LOCAL_TAX_RATE, PENSION_TAX_RATES_under_70,
    PENSION_TAX_RATES_under_80, PENSION_TAX_RATES_over_80, inputC7]

/-! ## Claim C1: the low-flat-rate branch -/

/-- Claim C1 (amended): with a positive within-limit taxable withdrawal
`w`, the resolver takes the low-flat-rate branch exactly when `w` itself —
not the pension total including other pension income — is at most
`PENSION_TAX_THRESHOLD`; in that branch the tax is the age-tiered flat
rate times `w`, the mode is low-flat-rate, and the comprehensive and
separate fields both equal the chosen tax.  The boundary is inclusive:
at `w = PENSION_TAX_THRESHOLD` the branch is still taken. -/
theorem C1_low_rate_branch (session_flag : Bool) (w : ℚ) (ui : UserInput) (age : ℕ)
    (hw : 0 < w) :
    ((calculate_annual_pension_tax session_flag w ui age).choice = TaxChoice.lowRate
      ↔ w ≤ PENSION_TAX_THRESHOLD)
    ∧ (w ≤ PENSION_TAX_THRESHOLD →
        calculate_annual_pension_tax session_flag w ui age =
          { chosen := w * pension_low_tax_rate age,
            comprehensive := w * pension_low_tax_rate age,
            separate := w * pension_low_tax_rate age,
            choice := TaxChoice.lowRate }) := by
  by_cases hth : w ≤ PENSION_TAX_THRESHOLD
  · unfold calculate_annual_pension_tax
    rw [if_pos hth]
    exact ⟨⟨fun _ => hth, fun _ => rfl⟩, fun _ => rfl⟩
  · unfold calculate_annual_pension_tax
    rw [if_neg hth]
    refine ⟨⟨fun h => ?_, fun h => absurd h hth⟩, fun h => absurd h hth⟩
    dsimp only at h
    split_ifs at h

/-- Witness for C1 exactly at the threshold boundary (15,000,000) with
age 72: the low-flat-rate branch is taken with the 4.4% tier. -/
theorem C1_low_rate_branch_witness :
    (calculate_annual_pension_tax true 15000000 inputC1W 72).choice = TaxChoice.lowRate
    ∧ calculate_annual_pension_tax true 15000000 inputC1W 72 =
        { chosen := 15000000 * pension_low_tax_rate 72,
          comprehensive := 15000000 * pension_low_tax_rate 72,
          separate := 15000000 * pension_low_tax_rate 72,
          choice := TaxChoice.lowRate } := by
  have h := C1_low_rate_branch true 15000000 inputC1W 72 (by norm_num)
  exact ⟨h.1.mpr (by norm_num [PENSION_TAX_THRESHOLD]),
    h.2 (by norm_num [PENSION_TAX_THRESHOLD])⟩

/-- Counterexample to C1 as stated: with a within-limit withdrawal of
14,000,000 and 5,000,000 of other pension income the total pension gross
is 19,000,000, above the 15,000,000 threshold, yet the code still takes
the low-flat-rate branch, because it compares only the current private
withdrawal against the threshold. -/
theorem C1_counterexample :
    PENSION_TAX_THRESHOLD
        < 14000000 + (inputC1.other_private_pension_income + inputC1.public_pension_income)
    ∧ (calculate_annual_pension_tax true 14000000 inputC1 60).choice = TaxChoice.lowRate
    ∧ (0 : ℚ) < 14000000 := by
  refine ⟨by norm_num [inputC1, PENSION_TAX_THRESHOLD], ?_, by norm_num⟩
  norm_num [calculate_annual_pension_tax, PENSION_TAX_THRESHOLD]

/-! ## Claim C2: the above-threshold choice -/

/-- Claim C2 (amended): whenever the within-limit taxable withdrawal `w`
itself exceeds the threshold (the code's actual branch condition — not
the pension total of the original claim, see `C2_counterexample`), the
resolver returns comprehensiveTax equal to the spec's incremental
formula, separateTax equal to `w` times the flat 16.5% rate, the chosen
tax equal to the minimum of the two, and mode comprehensive exactly when
the comprehensive tax is strictly lower, ties resolving to separate. -/
theorem C2_above_threshold (session_flag : Bool) (w : ℚ) (ui : UserInput) (age : ℕ)
    (hw : PENSION_TAX_THRESHOLD < w) :
    calculate_annual_pension_tax session_flag w ui age =
      { chosen := min (spec_incremental_comprehensive_tax session_flag ui w)
          (w * (0.165 : ℚ)),
        comprehensive := spec_incremental_comprehensive_tax session_flag ui w,
        separate := w * (0.165 : ℚ),
        choice := if spec_incremental_comprehensive_tax session_flag ui w < w * (0.165 : ℚ)
          then TaxChoice.comprehensive else TaxChoice.separate } := by
  have hassoc :
      w + ui.other_private_pension_income + ui.public_pension_income
        = w + (ui.other_private_pension_income + ui.public_pension_income) := by ring
  unfold calculate_annual_pension_tax
  rw [if_neg (not_le.mpr hw)]
  dsimp only
  rw [hassoc]
  simp only [spec_incremental_comprehensive_tax, SEPARATE_TAX_RATE]
  split_ifs with h
  · rw [min_eq_left h.le]
  · rw [min_eq_right (not_lt.mp h)]

/-- Witness for C2 at `w` = 20,000,000 with no other income and the
deduction checkbox off. -/
theorem C2_above_threshold_witness :
    calculate_annual_pension_tax false 20000000 inputC2W 60 =
      { chosen := min (spec_incremental_comprehensive_tax false inputC2W 20000000)
          (20000000 * (0.165 : ℚ)),
        comprehensive := spec_incremental_comprehensive_tax false inputC2W 20000000,
        separate := 20000000 * (0.165 : ℚ),
        choice := if spec_incremental_comprehensive_tax false inputC2W 20000000
            < 20000000 * (0.165 : ℚ)
          then TaxChoice.comprehensive else TaxChoice.separate } :=
  C2_above_threshold false 20000000 inputC2W 60 (by norm_num [PENSION_TAX_THRESHOLD])

/-- Counterexample to C2 as stated: with a 14,000,000 within-limit
withdrawal and 2,000,000 of other pension income the pension total is
16,000,000, above the threshold, so the claim requires
separateTax = 14,000,000 × 16.5% = 2,310,000; but the code takes the
low-flat-rate branch and reports separateTax = 770,000. -/
theorem C2_counterexample :
    PENSION_TAX_THRESHOLD
        < 14000000 + (inputC2.other_private_pension_income + inputC2.public_pension_income)
    ∧ (calculate_annual_pension_tax true 14000000 inputC2 60).separate
        ≠ 14000000 * (0.165 : ℚ) := by
  constructor
  · norm_num [inputC2, PENSION_TAX_THRESHOLD]
  · norm_num [calculate_annual_pension_tax, PENSION_TAX_THRESHOLD, pension_low_tax_rate,
      PENSION_TAX_RATES_under_70]

/-! ## Claim C10: bounds on the pension-income deduction -/

/-- Claim C10: for every non-negative gross pension income, the deduction
is between 0 and the gross income and never exceeds the 9,000,000
ceiling; hence the taxable pension income (gross minus deduction) used in
both comprehensive bases of the resolver is never negative.  This holds
for either state of the session deduction checkbox. -/
theorem C10_deduction_bounds (session_flag : Bool) (x : ℚ) (hx : 0 ≤ x) :
    0 ≤ get_pension_income_deduction_amount session_flag x
    ∧ get_pension_income_deduction_amount session_flag x ≤ x
    ∧ get_pension_income_deduction_amount session_flag x ≤ 9000000
    ∧ 0 ≤ x - get_pension_income_deduction_amount session_flag x := by
  have key : 0 ≤ get_pension_income_deduction_amount session_flag x
      ∧ get_pension_income_deduction_amount session_flag x ≤ x
      ∧ get_pension_income_deduction_amount session_flag x ≤ 9000000 := by
    unfold get_pension_income_deduction_amount
    split_ifs with h0 h1 h2 h3 h4
    · exact ⟨le_rfl, hx, by norm_num⟩
    · exact ⟨hx, le_rfl, by linarith⟩
    · push_neg at h2
      refine ⟨by linarith, by linarith, by linarith⟩
    · push_neg at h3
      refine ⟨by linarith, by linarith, by linarith⟩
    · push_neg at h4
      refine ⟨le_min (by linarith) (by norm_num),
        le_trans (min_le_left _ _) (by linarith), min_le_right _ _⟩
    · exact ⟨le_rfl, hx, by norm_num⟩
  exact ⟨key.1, key.2.1, key.2.2, by linarith [key.2.1]⟩

/-- Witness for C10 at gross pension income 20,000,000. -/
theorem C10_deduction_bounds_witness :
    0 ≤ get_pension_income_deduction_amount true 20000000
    ∧ get_pension_income_deduction_amount true 20000000 ≤ 20000000
    ∧ get_pension_income_deduction_amount true 20000000 ≤ 9000000
    ∧ 0 ≤ 20000000 - get_pension_income_deduction_amount true 20000000 :=
  C10_deduction_bounds true 20000000 (by norm_num)

/-! ## Claim C6: determinism and hidden state -/

/-- Claim C6 (amended): the simulation run is a pure, deterministic
function of the `PlanInput` *together with* the session checkbox state
read inside `get_pension_income_deduction_amount`; two runs agreeing on
both produce identical accumulation results and payout ledgers.  It is
not a function of the `PlanInput` alone: see `C6_counterexample`. -/
theorem C6_deterministic (ui : UserInput) (f1 f2 : Bool) (h : f1 = f2) :
    run_full_simulation ui f1 = run_full_simulation ui f2 := by rw [h]

/-- Witness for C6: a run repeated with the same input and session flag. -/
theorem C6_deterministic_witness :
    run_full_simulation inputC6W true = run_full_simulation inputC6W true :=
  C6_deterministic inputC6W true true rfl

/-- Counterexample to C6 as stated: the same `PlanInput` produces
different ledgers under the two states of the hidden session checkbox
(first-year pension tax 603,240 with the deduction against 1,188,000
without), so the run does depend on session state, not on the input
record alone. -/
theorem C6_counterexample :
    (run_full_simulation inputC6 true).2.2.map YearRow.pension_tax
      ≠ (run_full_simulation inputC6 false).2.2.map YearRow.pension_tax := by
  norm_num [run_full_simulation, calculate_total_at_retirement, accumulation_loop,
    contribution_step, inputC6, run_payout_simulation, payout_loop, payout_year_step,
    initial_taxable_wallet, total_non_deductible_paid, calculate_annual_pension_tax,
    pension_low_tax_rate, get_pension_income_deduction_amount, get_comprehensive_tax,
    bracket_tax, COMPREHENSIVE_TAX_BRACKETS, PENSION_TAX_THRESHOLD, SEPARATE_TAX_RATE,
    OTHER_INCOME_TAX_RATE, LOCAL_TAX_RATE, PENSION_TAX_RATES_under_70,
    PENSION_TAX_RATES_under_80, PENSION_TAX_RATES_over_80]

/-! ## Claim C9: the accumulation simulator -/

lemma accumulation_loop_length_iterate (ui : UserInput) (r : ℚ) :
    ∀ (n year : ℕ) (v : ℚ),
      (accumulation_loop ui r n year v).2.length = n
      ∧ (accumulation_loop ui r n year v).1 = (contribution_step ui r)^[n] v := by
  intro n
  induction n with
  | zero => exact fun year v => ⟨rfl, rfl⟩
  | succ k ih =>
    intro year v
    simp only [accumulation_loop, List.length_cons]
    exact ⟨by rw [(ih (year + 1) (contribution_step ui r v)).1],
      by rw [(ih (year + 1) (contribution_step ui r v)).2, Function.iterate_succ_apply]⟩

/-- Claim C9: the accumulation simulator iterates exactly
`payoutStartAge − startAge` times, each year applying the start-of-year
update `(balance + contribution) * (1 + preReturn)` or the end-of-year
update `balance * (1 + preReturn) + contribution` according to the
timing option, and returns balance 0 with an empty series when the
number of contribution years is 0. -/
theorem C9_accumulation (ui : UserInput) :
    (calculate_total_at_retirement ui).2.length = ui.retirement_age - ui.start_age
    ∧ (calculate_total_at_retirement ui).1 =
        (fun v => match ui.contribution_timing with
          | ContributionTiming.startOfYear =>
            (v + ui.annual_contribution) * (1 + ui.pre_retirement_return / 100)
          | ContributionTiming.endOfYear =>
            v * (1 + ui.pre_retirement_return / 100)
              + ui.annual_contribution)^[ui.retirement_age - ui.start_age] 0
    ∧ (ui.retirement_age - ui.start_age = 0 → calculate_total_at_retirement ui = (0, [])) := by
  have hfun :
      (fun v => match ui.contribution_timing with
        | ContributionTiming.startOfYear =>
          (v + ui.annual_contribution) * (1 + ui.pre_retirement_return / 100)
        | ContributionTiming.endOfYear =>
          v * (1 + ui.pre_retirement_return / 100) + ui.annual_contribution)
        = contribution_step ui (ui.pre_retirement_return / 100) := by
    funext v
    cases h : ui.contribution_timing <;> simp [contribution_step, h]
  refine ⟨?_, ?_, ?_⟩
  · exact (accumulation_loop_length_iterate ui (ui.pre_retirement_return / 100)
      (ui.retirement_age - ui.start_age) 0 0).1
  · rw [hfun]
    exact (accumulation_loop_length_iterate ui (ui.pre_retirement_return / 100)
      (ui.retirement_age - ui.start_age) 0 0).2
  · intro h
    rw [calculate_total_at_retirement, h]
    rfl

/-- Witness for C9 at zero contribution years: balance 0, empty series. -/
theorem C9_accumulation_witness :
    calculate_total_at_retirement inputC9 = (0, [])
    ∧ (calculate_total_at_retirement inputC9).2.length
        = inputC9.retirement_age - inputC9.start_age := by
  have h := C9_accumulation inputC9
  exact ⟨h.2.2 (by decide), h.1⟩

/-! ## Claim C8: straight-line depletion at 0% post-payout return -/

lemma payout_loop_zero_rate (inputs : UserInput) (flag : Bool) (py : ℕ) :
    ∀ (fuel off : ℕ) (ntw tw : ℚ), off + fuel = py → 0 < ntw + tw →
      (payout_loop inputs flag 0 py fuel off ntw tw).length = fuel
      ∧ straight_line_rows (ntw + tw) fuel
          (payout_loop inputs flag 0 py fuel off ntw tw) = true
      ∧ (payout_loop inputs flag 0 py fuel off ntw tw ≠ [] →
          (payout_loop inputs flag 0 py fuel off ntw tw).getLast?.map YearRow.end_balance
            = some 0) := by
  intro fuel
  induction fuel with
  | zero =>
    intro off ntw tw hoff hb
    exact ⟨rfl, rfl, fun h => absurd rfl h⟩
  | succ k ih =>
    intro off ntw tw hoff hb
    have hlt : off < py := by omega
    have hng : ¬ (ntw + tw ≤ 0) := not_le.mpr hb
    have hsub : py - off = k + 1 := by omega
    have hpay : (payout_year_step inputs flag 0 py off ntw tw).row.annual_payout
        = (ntw + tw) / ((k + 1 : ℕ) : ℚ) := by
      rw [payout_year_step_zero_rate_payout inputs flag py off ntw tw hlt hb, hsub]
    have hnewsum : (payout_year_step inputs flag 0 py off ntw tw).new_non_taxable_wallet
        + (payout_year_step inputs flag 0 py off ntw tw).new_taxable_wallet
        = (ntw + tw) - (ntw + tw) / ((k + 1 : ℕ) : ℚ) := by
      rw [payout_year_step_new_sum, hpay]; ring
    have hend : (payout_year_step inputs flag 0 py off ntw tw).row.end_balance
        = (ntw + tw) - (ntw + tw) / ((k + 1 : ℕ) : ℚ) := by
      rw [payout_year_step_end_balance, hnewsum]
    simp only [payout_loop, if_neg hng]
    rcases Nat.eq_zero_or_pos k with hk | hk
    · subst hk
      have hloop0 : payout_loop inputs flag 0 py 0 (off + 1)
          (payout_year_step inputs flag 0 py off ntw tw).new_non_taxable_wallet
          (payout_year_step inputs flag 0 py off ntw tw).new_taxable_wallet = [] := rfl
      refine ⟨by simp [hloop0], ?_, ?_⟩
      · simp only [hloop0, straight_line_rows, Bool.and_eq_true, decide_eq_true_eq]
        exact ⟨⟨hpay, hend⟩, trivial⟩
      · intro hne
        simp only [hloop0]
        simp [hend]
    · have hb2 : 0 < (payout_year_step inputs flag 0 py off ntw tw).new_non_taxable_wallet
          + (payout_year_step inputs flag 0 py off ntw tw).new_taxable_wallet := by
        rw [hnewsum]
        have hkc : (1 : ℚ) < ((k + 1 : ℕ) : ℚ) := by
          exact_mod_cast (by omega : 1 < k + 1)
        have := div_lt_self hb hkc
        linarith
      have ihres := ih (off + 1)
        (payout_year_step inputs flag 0 py off ntw tw).new_non_taxable_wallet
        (payout_year_step inputs flag 0 py off ntw tw).new_taxable_wallet
        (by omega) hb2
      have hne : payout_loop inputs flag 0 py k (off + 1)
          (payout_year_step inputs flag 0 py off ntw tw).new_non_taxable_wallet
          (payout_year_step inputs flag 0 py off ntw tw).new_taxable_wallet ≠ [] := by
        intro hnil
        rw [hnil] at ihres
        simp at ihres
        omega
      refine ⟨by simp [ihres.1], ?_, ?_⟩
      · simp only [straight_line_rows, Bool.and_eq_true, decide_eq_true_eq]
        refine ⟨⟨hpay, hend⟩, ?_⟩
        have : (ntw + tw) - (ntw + tw) / ((k + 1 : ℕ) : ℚ)
            = (payout_year_step inputs flag 0 py off ntw tw).new_non_taxable_wallet
              + (payout_year_step inputs flag 0 py off ntw tw).new_taxable_wallet :=
          hnewsum.symm
        rw [this]
        simpa using ihres.2.1
      · intro _
        obtain ⟨t0, ts, hts⟩ := List.exists_cons_of_ne_nil hne
        rw [hts, List.getLast?_cons_cons, ← hts]
        exact ihres.2.2 hne

/-- Claim C8: with a post-payout return of exactly 0 and a positive
starting payout balance, every year's gross withdrawal equals the
remaining balance divided by the remaining years (straight-line
depletion, encoded by `straight_line_rows`), the ledger has exactly
`payoutEndAge − payoutStartAge` rows, and the final row's end-of-year
balance is exactly 0. -/
theorem C8_straight_line (ui : UserInput) (flag : Bool) (total tnd : ℚ)
    (hage : ui.retirement_age < ui.end_age) (hr : ui.post_retirement_return = 0)
    (ht : 0 < total) :
    (run_payout_simulation ui total tnd flag).length = ui.end_age - ui.retirement_age
    ∧ straight_line_rows total (ui.end_age - ui.retirement_age)
        (run_payout_simulation ui total tnd flag) = true
    ∧ (run_payout_simulation ui total tnd flag).getLast?.map YearRow.end_balance
        = some 0 := by
  have hrate : ui.post_retirement_return / 100 = 0 := by rw [hr]; norm_num
  have hsum : tnd + initial_taxable_wallet total tnd = total := by
    unfold initial_taxable_wallet; ring
  have hN : 0 < ui.end_age - ui.retirement_age := by omega
  have key := payout_loop_zero_rate ui flag (ui.end_age - ui.retirement_age)
    (ui.end_age - ui.retirement_age) 0 tnd (initial_taxable_wallet total tnd)
    (by omega) (by rw [hsum]; exact ht)
  rw [hsum] at key
  unfold run_payout_simulation
  dsimp only
  rw [hrate]
  refine ⟨key.1, key.2.1, key.2.2 ?_⟩
  rw [← List.length_pos_iff_ne_nil, key.1]
  exact hN

/-- Witness for C8: a 0% post-payout input, starting balance 100. -/
theorem C8_straight_line_witness :
    (run_payout_simulation inputC8 100 0 true).length
        = inputC8.end_age - inputC8.retirement_age
    ∧ straight_line_rows 100 (inputC8.end_age - inputC8.retirement_age)
        (run_payout_simulation inputC8 100 0 true) = true
    ∧ (run_payout_simulation inputC8 100 0 true).getLast?.map YearRow.end_balance
        = some 0 :=
  C8_straight_line inputC8 true 100 0 (by decide) (by norm_num [inputC8]) (by norm_num)
